import Mathlib

/-
Verification of the lineage-extraction core of the openlineage provider
(OperatorLineage, BaseExtractor, DefaultExtractor, ExtractorManager).
The implementation module itself is not part of the excerpt; the model
below is reconstructed from the specification, with every behavioral
choice pinned by the repository's unit tests
(providers/openlineage/tests/unit/openlineage/extractors/test_base.py).
Datasets, facet values and task instances are opaque type parameters
Ds, Fct and TI.
-/

namespace AirflowOL

/-- Modelled from the spec: the canonical Metadata Record (`OperatorLineage`):
inputs, outputs, run-scoped facets and job-scoped facets, each defaulting
to the empty collection on default construction. -/
structure OperatorLineage (Ds Fct : Type) where
  inputs : List Ds := []
  outputs : List Ds := []
  run_facets : List (String × Fct) := []
  job_facets : List (String × Fct) := []
deriving DecidableEq, Repr

/-- Modelled from the spec: `OperatorLineage()` with no arguments, the
empty Metadata Record. -/
def OperatorLineage.empty {Ds Fct : Type} : OperatorLineage Ds Fct := {}

/-- Modelled from the spec: a duck-typed lineage-like value as returned by a
unit-of-work's own `get_openlineage_facets_on_*` method. Each canonical
field may be present (`some`) or absent (`none`); `extra_fields` records
attribute names that exist on the source object but not on the canonical
record (e.g. `some_other_param`). -/
structure LineageLike (Ds Fct : Type) where
  inputs : Option (List Ds) := none
  outputs : Option (List Ds) := none
  run_facets : Option (List (String × Fct)) := none
  job_facets : Option (List (String × Fct)) := none
  extra_fields : List String := []
deriving DecidableEq, Repr

/-- Modelled from the spec: a lifecycle-hook call either returns a
lineage-like value or raises an exception. -/
abbrev HookResult (Ds Fct : Type) := Except Unit (LineageLike Ds Fct)

/-- Modelled from the spec: field-by-field reconstruction of a canonical
Metadata Record from a loosely-typed lineage object. It succeeds exactly
when all four canonical fields are present on the source object; fields of
the source that have no counterpart on the canonical record are ignored. -/
def coerceLineage {Ds Fct : Type} (x : LineageLike Ds Fct) : Option (OperatorLineage Ds Fct) :=
  match x.inputs, x.outputs, x.run_facets, x.job_facets with
  | some i, some o, some rf, some jf =>
      some { inputs := i, outputs := o, run_facets := rf, job_facets := jf }
  | _, _, _, _ => none

/-- Modelled from the spec: the Default Extractor's exception-safe wrapper
around a unit-of-work hook call (`_get_openlineage_facets`): an exception
or a shape-coercion failure degrades to the empty Metadata Record. -/
def getOpenlineageFacets {Ds Fct : Type} (r : HookResult Ds Fct) : OperatorLineage Ds Fct :=
  match r with
  | Except.error _ => OperatorLineage.empty
  | Except.ok x =>
      match coerceLineage x with
      | some md => md
      | none => OperatorLineage.empty

/-- Modelled from the spec: the state of a `get_openlineage_facets_on_*`
attribute on a unit-of-work class: missing, a non-callable class attribute
of that name, or a genuine method. -/
inductive HookSlot (α : Type) where
  | absent : HookSlot α
  | nonCallableAttr : HookSlot α
  | method : α → HookSlot α

/-- Modelled from the spec: the callability test used by the
Default-Extractor eligibility check — only a genuine method counts. -/
def HookSlot.isMethod {α : Type} : HookSlot α → Bool
  | HookSlot.method _ => true
  | _ => false

/-- Modelled from the spec: a unit-of-work (task/operator) instance:
its type name plus the three optional `get_openlineage_facets_on_*`
lifecycle hooks. -/
structure Operator (Ds Fct TI : Type) where
  classname : String
  on_start : HookSlot (HookResult Ds Fct) := HookSlot.absent
  on_complete : HookSlot (TI → HookResult Ds Fct) := HookSlot.absent
  on_failure : HookSlot (TI → HookResult Ds Fct) := HookSlot.absent

/-- Modelled from the spec: the result of one Extractor lifecycle call:
it may raise, return `null` (no lineage), or return a Metadata Record. -/
abbrev ExtractResult (Ds Fct : Type) := Except Unit (Option (OperatorLineage Ds Fct))

/-- Modelled from the spec: a `BaseExtractor` instance. Each `Option` field
records whether the concrete Extractor class overrides the corresponding
hook (`_execute_extraction`, `extract`, `extract_on_complete`,
`extract_on_failure`); `none` means the base-class behavior applies. -/
structure BaseExtractor (Ds Fct TI : Type) where
  execute_extraction : Option (ExtractResult Ds Fct) := none
  extract_override : Option (ExtractResult Ds Fct) := none
  on_complete_override : Option (TI → ExtractResult Ds Fct) := none
  on_failure_override : Option (TI → ExtractResult Ds Fct) := none

/-- Modelled from the spec: `BaseExtractor.extract` — if not overridden it
delegates to `_execute_extraction`, and returns `null` when that hook is
unimplemented. -/
def BaseExtractor.extract {Ds Fct TI : Type} (e : BaseExtractor Ds Fct TI) : ExtractResult Ds Fct :=
  match e.extract_override with
  | some r => r
  | none =>
      match e.execute_extraction with
      | some r => r
      | none => Except.ok none

/-- Modelled from the spec: `BaseExtractor.extract_on_complete` — falls back
to `extract()` when not overridden. -/
def BaseExtractor.extract_on_complete {Ds Fct TI : Type} (e : BaseExtractor Ds Fct TI) (ti : TI) :
    ExtractResult Ds Fct :=
  match e.on_complete_override with
  | some f => f ti
  | none => e.extract

/-- Modelled from the spec: `BaseExtractor.extract_on_failure` — falls back
to `extract_on_complete(task_instance)` when not overridden. -/
def BaseExtractor.extract_on_failure {Ds Fct TI : Type} (e : BaseExtractor Ds Fct TI) (ti : TI) :
    ExtractResult Ds Fct :=
  match e.on_failure_override with
  | some f => f ti
  | none => e.extract_on_complete ti

/-- Modelled from the spec: the `DefaultExtractor` built over a unit-of-work
instance. `extract()` calls the instance's on-start hook when it is a
genuine method and otherwise yields the empty Metadata Record; the
complete/failure hooks are overridden exactly when the instance defines the
corresponding method, and every hook call goes through the exception-safe,
shape-coercing wrapper. -/
def DefaultExtractor.build {Ds Fct TI : Type} (op : Operator Ds Fct TI) : BaseExtractor Ds Fct TI where
  execute_extraction := none
  extract_override := some (Except.ok (some
    (match op.on_start with
     | HookSlot.method r => getOpenlineageFacets r
     | _ => OperatorLineage.empty)))
  on_complete_override :=
    match op.on_complete with
    | HookSlot.method f => some fun ti => Except.ok (some (getOpenlineageFacets (f ti)))
    | _ => none
  on_failure_override :=
    match op.on_failure with
    | HookSlot.method f => some fun ti => Except.ok (some (getOpenlineageFacets (f ti)))
    | _ => none

/-- Modelled from the spec: an Extractor class as stored in the registry —
an identity (its qualified name) together with its constructor taking the
unit-of-work instance. -/
structure ExtractorClass (Ds Fct TI : Type) where
  name : String
  build : Operator Ds Fct TI → BaseExtractor Ds Fct TI

/-- Modelled from the spec: the `DefaultExtractor` class itself as a
registry value. -/
def defaultExtractorClass {Ds Fct TI : Type} : ExtractorClass Ds Fct TI :=
  { name := "DefaultExtractor", build := DefaultExtractor.build }

/-- Modelled from the spec: the Extractor Manager's state — the built-in
registry and the custom (configuration-supplied) registry, each a mapping
from unit-of-work type name to Extractor class. -/
structure ExtractorManager (Ds Fct TI : Type) where
  builtin : List (String × ExtractorClass Ds Fct TI) := []
  custom : List (String × ExtractorClass Ds Fct TI) := []

/-- Modelled from the spec: first-match lookup of a type name in a registry
association list. -/
def registryLookup {Ds Fct TI : Type} (l : List (String × ExtractorClass Ds Fct TI)) (k : String) :
    Option (ExtractorClass Ds Fct TI) :=
  match l with
  | [] => none
  | (n, ec) :: rest => if n = k then some ec else registryLookup rest k

/-- Modelled from the spec: lookup in the merged registry — a custom entry
overrides a built-in entry on name collision. -/
def ExtractorManager.mergedLookup {Ds Fct TI : Type} (m : ExtractorManager Ds Fct TI) (k : String) :
    Option (ExtractorClass Ds Fct TI) :=
  match registryLookup m.custom k with
  | some ec => some ec
  | none => registryLookup m.builtin k

/-- Modelled from the spec: the Default-Extractor applicability test — the
unit-of-work defines at least one of the three `get_openlineage_facets_on_*`
hooks as a genuine method (a non-callable class attribute does not count). -/
def defaultEligible {Ds Fct TI : Type} (op : Operator Ds Fct TI) : Bool :=
  op.on_start.isMethod || op.on_complete.isMethod || op.on_failure.isMethod

/-- Modelled from the spec: `ExtractorManager.get_extractor_class` — the
merged-registry lookup comes first; only on a miss is Default-Extractor
eligibility consulted; `none` when neither applies. -/
def ExtractorManager.get_extractor_class {Ds Fct TI : Type} (m : ExtractorManager Ds Fct TI)
    (op : Operator Ds Fct TI) : Option (ExtractorClass Ds Fct TI) :=
  match m.mergedLookup op.classname with
  | some ec => some ec
  | none => if defaultEligible op then some defaultExtractorClass else none

/-- Modelled from the spec: the task-instance states exercised by the
dispatch logic. -/
inductive TaskInstanceState where
  | running : TaskInstanceState
  | success : TaskInstanceState
  | failed : TaskInstanceState
  | up_for_retry : TaskInstanceState
deriving DecidableEq, Repr

/-- Modelled from the spec: `ExtractorManager.extract_metadata`. It resolves
the Extractor class (returning the empty record on `none`), dispatches on
the task-instance state, and degrades any raised exception or `null`
lineage to the empty Metadata Record, never propagating a failure.
Dispatch note: the spec's table sends every non-FAILED state to
`extract_on_complete`, but the repository's tests
(test_extractor_manager_calls_appropriate_extractor_method) pin RUNNING to
the start-phase `extract()`; the model follows the tests. The dagrun
argument of the source signature does not influence the returned record
and is omitted. -/
def ExtractorManager.extract_metadata {Ds Fct TI : Type} (m : ExtractorManager Ds Fct TI)
    (task : Operator Ds Fct TI) (task_instance_state : Option TaskInstanceState)
    (task_instance : TI) : OperatorLineage Ds Fct :=
  match m.get_extractor_class task with
  | none => OperatorLineage.empty
  | some ec =>
      let e := ec.build task
      let r :=
        match task_instance_state with
        | some TaskInstanceState.failed => e.extract_on_failure task_instance
        | some TaskInstanceState.running => e.extract
        | _ => e.extract_on_complete task_instance
      match r with
      | Except.error _ => OperatorLineage.empty
      | Except.ok none => OperatorLineage.empty
      | Except.ok (some md) => md

/- Concrete fixtures mirroring the unit-test operators, at Ds = Fct = String
and TI = Unit. -/

/-- Test fixture: the on-start lineage of `OperatorWithAllOlMethods`. -/
def llStart : LineageLike String String :=
  { inputs := some ["inputtable"], outputs := some ["outputtable"],
    run_facets := some [("parent", "parentrun")], job_facets := some [("sql", "select")] }

/-- Test fixture: the on-complete lineage (FINISHED_FACETS). -/
def llComplete : LineageLike String String :=
  { inputs := some ["inputtable"], outputs := some ["outputtable"],
    run_facets := some [("parent", "parentrun")], job_facets := some [("complete", "finished")] }

/-- Test fixture: the on-failure lineage (FAILED_FACETS). -/
def llFailure : LineageLike String String :=
  { inputs := some ["inputtable"], outputs := some ["outputtable"],
    run_facets := some [("parent", "parentrun")], job_facets := some [("failure", "failed")] }

/-- Test fixture: a lineage-like value missing `run_facets`/`job_facets`
(`WrongOperatorLineage`). -/
def llWrong : LineageLike String String :=
  { inputs := some ["inputtable"], outputs := some ["outputtable"],
    extra_fields := ["some_other_param"] }

/-- Test fixture: a structurally compatible different-typed lineage value
with extra attributes (`DifferentOperatorLineage`). -/
def llDifferent : LineageLike String String :=
  { inputs := some ["inputtable"], outputs := some ["outputtable"],
    run_facets := some [("parent", "parentrun")], job_facets := some [("sql", "select")],
    extra_fields := ["name", "some_other_param"] }

/-- Test fixture: `OperatorWithAllOlMethods` — all three hooks implemented,
producing distinct records. -/
def opAllMethods : Operator String String Unit :=
  { classname := "OperatorWithAllOlMethods",
    on_start := HookSlot.method (Except.ok llStart),
    on_complete := HookSlot.method fun _ => Except.ok llComplete,
    on_failure := HookSlot.method fun _ => Except.ok llFailure }

/-- Test fixture: `OperatorWithoutStart` — only the on-complete hook. -/
def opNoStart : Operator String String Unit :=
  { classname := "OperatorWithoutStart",
    on_complete := HookSlot.method fun _ => Except.ok llComplete }

/-- Test fixture: `OperatorWrongOperatorLineageClass` — the on-start hook
returns a value that cannot be coerced. -/
def opWrongLineage : Operator String String Unit :=
  { classname := "OperatorWrongOperatorLineageClass",
    on_start := HookSlot.method (Except.ok llWrong) }

/-- Test fixture: `OperatorDifferentOperatorLineageClass` — the on-start
hook returns a structurally compatible different-typed value. -/
def opDifferentLineage : Operator String String Unit :=
  { classname := "OperatorDifferentOperatorLineageClass",
    on_start := HookSlot.method (Except.ok llDifferent) }

/-- Test fixture: `BrokenOperator` — a non-callable class attribute named
like a hook, no genuine hook method. -/
def opBroken : Operator String String Unit :=
  { classname := "BrokenOperator", on_start := HookSlot.nonCallableAttr }

/-- Test fixture: an ExtractorManager with empty registries. -/
def emptyManager : ExtractorManager String String Unit := {}

/-- Test fixture: an Extractor overriding only `_execute_extraction`
(`ExtractorWithExecuteExtractionOnly`). -/
def extractorExecuteOnly : BaseExtractor String String Unit :=
  { execute_extraction := some (Except.ok (some (getOpenlineageFacets (Except.ok llStart)))) }

/-- Test fixture: an Extractor overriding `_execute_extraction` and
`extract_on_complete` but not `extract_on_failure`
(`ExtractorWithoutExecuteOnFailure`). -/
def extractorNoFailure : BaseExtractor String String Unit :=
  { execute_extraction := some (Except.ok (some (getOpenlineageFacets (Except.ok llStart)))),
    on_complete_override := some fun _ => Except.ok (some (getOpenlineageFacets (Except.ok llComplete))) }

/-- Helper: first-match lookup distributes over registry append. -/
theorem registryLookup_append {Ds Fct TI : Type} (l1 l2 : List (String × ExtractorClass Ds Fct TI))
    (k : String) :
    registryLookup (l1 ++ l2) k =
      match registryLookup l1 k with
      | some ec => some ec
      | none => registryLookup l2 k := by
  induction l1 with
  | nil => simp [registryLookup]
  | cons p rest ih =>
      obtain ⟨n, ec⟩ := p
      by_cases h : n = k
      · simp [registryLookup, h]
      · simp [registryLookup, h, ih]

/-- Claim C3: whenever `get_extractor_class` resolves to `none`,
`extract_metadata` returns the empty Metadata Record (all four collections
empty) for every state and task instance; it never returns null and never
raises. -/
theorem claim_C3 {Ds Fct TI : Type} (m : ExtractorManager Ds Fct TI) (op : Operator Ds Fct TI)
    (state : Option TaskInstanceState) (ti : TI)
    (h : m.get_extractor_class op = none) :
    m.extract_metadata op state ti = OperatorLineage.empty := by
  simp [ExtractorManager.extract_metadata, h]

/-- Witness for C3: the broken operator resolves to no extractor and
extraction yields the empty record. -/
theorem claim_C3_witness :
    emptyManager.extract_metadata opBroken none () = OperatorLineage.empty :=
  claim_C3 emptyManager opBroken none () rfl

/-- Claim C4: an Extractor that overrides neither `extract_on_complete` nor
`extract_on_failure` has both lifecycle methods return the same value as
`extract()`, for every task instance. -/
theorem claim_C4 {Ds Fct TI : Type} (e : BaseExtractor Ds Fct TI) (ti : TI)
    (hc : e.on_complete_override = none) (hf : e.on_failure_override = none) :
    e.extract_on_complete ti = e.extract ∧ e.extract_on_failure ti = e.extract := by
  simp [BaseExtractor.extract_on_complete, BaseExtractor.extract_on_failure, hc, hf]

/-- Witness for C4: the extractor overriding only `_execute_extraction`. -/
theorem claim_C4_witness :
    extractorExecuteOnly.extract_on_complete () = extractorExecuteOnly.extract ∧
      extractorExecuteOnly.extract_on_failure () = extractorExecuteOnly.extract :=
  claim_C4 extractorExecuteOnly () rfl rfl

/-- Claim C5: an Extractor that overrides `extract_on_complete` but not
`extract_on_failure` has `extract_on_failure` return exactly the overridden
`extract_on_complete` value, for every task instance. -/
theorem claim_C5 {Ds Fct TI : Type} (e : BaseExtractor Ds Fct TI) (ti : TI)
    (f : TI → ExtractResult Ds Fct)
    (hc : e.on_complete_override = some f) (hf : e.on_failure_override = none) :
    e.extract_on_failure ti = e.extract_on_complete ti ∧ e.extract_on_complete ti = f ti := by
  simp [BaseExtractor.extract_on_complete, BaseExtractor.extract_on_failure, hc, hf]

/-- Witness for C5: the extractor without an on-failure override falls back
to its overridden on-complete hook. -/
theorem claim_C5_witness :
    extractorNoFailure.extract_on_failure () = extractorNoFailure.extract_on_complete () ∧
      extractorNoFailure.extract_on_complete () =
        Except.ok (some (getOpenlineageFacets (Except.ok llComplete))) :=
  claim_C5 extractorNoFailure ()
    (fun _ => Except.ok (some (getOpenlineageFacets (Except.ok llComplete)))) rfl rfl

/-- Claim C10: Metadata Record equality is structural — records with
identical fields are equal — and the default-constructed record has all
four collections empty. -/
theorem claim_C10 {Ds Fct : Type} (a b : OperatorLineage Ds Fct)
    (h1 : a.inputs = b.inputs) (h2 : a.outputs = b.outputs)
    (h3 : a.run_facets = b.run_facets) (h4 : a.job_facets = b.job_facets) :
    a = b ∧ ({} : OperatorLineage Ds Fct).inputs = [] ∧
      ({} : OperatorLineage Ds Fct).outputs = [] ∧
      ({} : OperatorLineage Ds Fct).run_facets = [] ∧
      ({} : OperatorLineage Ds Fct).job_facets = [] := by
  refine ⟨?_, rfl, rfl, rfl, rfl⟩
  cases a
  cases b
  simp_all

/-- Witness for C10: two separately constructed records with the same
fields are equal. -/
theorem claim_C10_witness :
    ({ inputs := ["inputtable"] } : OperatorLineage String String) =
      { inputs := ["inputtable"], outputs := [], run_facets := [], job_facets := [] } ∧
      ({} : OperatorLineage String String).inputs = [] ∧
      ({} : OperatorLineage String String).outputs = [] ∧
      ({} : OperatorLineage String String).run_facets = [] ∧
      ({} : OperatorLineage String String).job_facets = [] :=
  claim_C10 { inputs := ["inputtable"] }
    { inputs := ["inputtable"], outputs := [], run_facets := [], job_facets := [] }
    rfl rfl rfl rfl

/-- Claim C6: when the on-start hook returns a different-typed object
carrying all four canonical fields (plus possible extra attributes), the
Default Extractor's `extract()` yields the canonical record built from
exactly those field values, ignoring the extras. -/
theorem claim_C6 {Ds Fct TI : Type} (op : Operator Ds Fct TI) (x : LineageLike Ds Fct)
    (i o : List Ds) (rf jf : List (String × Fct))
    (hs : op.on_start = HookSlot.method (Except.ok x))
    (hi : x.inputs = some i) (ho : x.outputs = some o)
    (hr : x.run_facets = some rf) (hj : x.job_facets = some jf) :
    (DefaultExtractor.build op).extract =
      Except.ok (some { inputs := i, outputs := o, run_facets := rf, job_facets := jf }) := by
  simp [DefaultExtractor.build, BaseExtractor.extract, hs, getOpenlineageFacets,
    coerceLineage, hi, ho, hr, hj]

/-- Witness for C6: the different-typed lineage fixture coerces
field-by-field. -/
theorem claim_C6_witness :
    (DefaultExtractor.build opDifferentLineage).extract =
      Except.ok (some { inputs := ["inputtable"], outputs := ["outputtable"],
                        run_facets := [("parent", "parentrun")],
                        job_facets := [("sql", "select")] }) :=
  claim_C6 opDifferentLineage llDifferent _ _ _ _ rfl rfl rfl rfl rfl

/-- Claim C7: `get_extractor_class` resolves in a fixed order — first-match
lookup in the merged registry (custom entries placed before built-in ones,
so a custom entry overrides a built-in on name collision), and only on a
registry miss is Default-Extractor eligibility consulted. In particular a
registry hit wins even when the task is Default-Extractor-eligible. -/
theorem claim_C7 {Ds Fct TI : Type} (m : ExtractorManager Ds Fct TI) (op : Operator Ds Fct TI) :
    m.get_extractor_class op =
      match registryLookup (m.custom ++ m.builtin) op.classname with
      | some ec => some ec
      | none => if defaultEligible op then some defaultExtractorClass else none := by
  rw [ExtractorManager.get_extractor_class, ExtractorManager.mergedLookup,
    registryLookup_append]

/-- Claim C1 counterexample: for the fully-implemented operator producing
distinct records for start/complete/failure, `extract_metadata` under
RUNNING does not return the complete record (the record returned under
SUCCESS): RUNNING takes the start path, refuting the claim that SUCCESS,
RUNNING, UP_FOR_RETRY and null all return the complete record. -/
theorem claim_C1_counterexample :
    ¬ emptyManager.extract_metadata opAllMethods (some TaskInstanceState.running) () =
        emptyManager.extract_metadata opAllMethods (some TaskInstanceState.success) () := by
  decide

/-- Claim C1 (amended): for an unregistered unit-of-work with all three
lifecycle hooks implemented, `extract_metadata` with state FAILED returns
the failure record; SUCCESS, UP_FOR_RETRY and null return the complete
record; and RUNNING returns the start record. -/
theorem claim_C1 {Ds Fct TI : Type} (m : ExtractorManager Ds Fct TI) (op : Operator Ds Fct TI)
    (ti : TI) (rs : HookResult Ds Fct) (fc ff : TI → HookResult Ds Fct)
    (hreg : m.mergedLookup op.classname = none)
    (hs : op.on_start = HookSlot.method rs)
    (hc : op.on_complete = HookSlot.method fc)
    (hf : op.on_failure = HookSlot.method ff) :
    m.extract_metadata op (some TaskInstanceState.failed) ti = getOpenlineageFacets (ff ti) ∧
    m.extract_metadata op (some TaskInstanceState.success) ti = getOpenlineageFacets (fc ti) ∧
    m.extract_metadata op (some TaskInstanceState.up_for_retry) ti = getOpenlineageFacets (fc ti) ∧
    m.extract_metadata op none ti = getOpenlineageFacets (fc ti) ∧
    m.extract_metadata op (some TaskInstanceState.running) ti = getOpenlineageFacets rs := by
  have helig : defaultEligible op = true := by
    simp [defaultEligible, hs, HookSlot.isMethod]
  refine ⟨?_, ?_, ?_, ?_, ?_⟩ <;>
    simp [ExtractorManager.extract_metadata, ExtractorManager.get_extractor_class, hreg, helig,
      defaultExtractorClass, DefaultExtractor.build, BaseExtractor.extract,
      BaseExtractor.extract_on_complete, BaseExtractor.extract_on_failure, hs, hc, hf]

/-- Witness for C1 (amended): the fully-implemented fixture yields the
failure, complete and start records under the corresponding states. -/
theorem claim_C1_witness :
    emptyManager.extract_metadata opAllMethods (some TaskInstanceState.failed) () =
        getOpenlineageFacets (Except.ok llFailure) ∧
      emptyManager.extract_metadata opAllMethods (some TaskInstanceState.success) () =
        getOpenlineageFacets (Except.ok llComplete) ∧
      emptyManager.extract_metadata opAllMethods (some TaskInstanceState.up_for_retry) () =
        getOpenlineageFacets (Except.ok llComplete) ∧
      emptyManager.extract_metadata opAllMethods none () =
        getOpenlineageFacets (Except.ok llComplete) ∧
      emptyManager.extract_metadata opAllMethods (some TaskInstanceState.running) () =
        getOpenlineageFacets (Except.ok llStart) :=
  claim_C1 emptyManager opAllMethods () (Except.ok llStart)
    (fun _ => Except.ok llComplete) (fun _ => Except.ok llFailure) rfl rfl rfl rfl

/-- Claim C2: for an unregistered unit-of-work whose only hook is an
on-start method returning a value that cannot be coerced into the canonical
record (or that raises), `extract_metadata` returns the empty Metadata
Record for every state and task instance; no failure of extraction
propagates to the caller (the function is total into `OperatorLineage`). -/
theorem claim_C2 {Ds Fct TI : Type} (m : ExtractorManager Ds Fct TI) (op : Operator Ds Fct TI)
    (state : Option TaskInstanceState) (ti : TI) (r : HookResult Ds Fct)
    (hreg : m.mergedLookup op.classname = none)
    (hs : op.on_start = HookSlot.method r)
    (hc : op.on_complete.isMethod = false)
    (hf : op.on_failure.isMethod = false)
    (hbad : ∀ x, r = Except.ok x → coerceLineage x = none) :
    m.extract_metadata op state ti = OperatorLineage.empty := by
  have helig : defaultEligible op = true := by
    simp [defaultEligible, hs, HookSlot.isMethod]
  have hgf : getOpenlineageFacets r = OperatorLineage.empty := by
    cases r with
    | error e => rfl
    | ok x => simp [getOpenlineageFacets, hbad x rfl]
  have hco : (DefaultExtractor.build op).on_complete_override = none := by
    cases hcc : op.on_complete with
    | absent => simp [DefaultExtractor.build, hcc]
    | nonCallableAttr => simp [DefaultExtractor.build, hcc]
    | method f => rw [hcc] at hc; simp [HookSlot.isMethod] at hc
  have hfo : (DefaultExtractor.build op).on_failure_override = none := by
    cases hff : op.on_failure with
    | absent => simp [DefaultExtractor.build, hff]
    | nonCallableAttr => simp [DefaultExtractor.build, hff]
    | method f => rw [hff] at hf; simp [HookSlot.isMethod] at hf
  have hext : (DefaultExtractor.build op).extract = Except.ok (some OperatorLineage.empty) := by
    simp [DefaultExtractor.build, BaseExtractor.extract, hs, hgf]
  cases state with
  | none =>
      simp [ExtractorManager.extract_metadata, ExtractorManager.get_extractor_class, hreg, helig,
        defaultExtractorClass, BaseExtractor.extract_on_complete, BaseExtractor.extract_on_failure,
        hco, hfo, hext]
  | some s =>
      cases s <;>
        simp [ExtractorManager.extract_metadata, ExtractorManager.get_extractor_class, hreg, helig,
          defaultExtractorClass, BaseExtractor.extract_on_complete,
          BaseExtractor.extract_on_failure, hco, hfo, hext]

/-- Witness for C2: the operator returning a lineage value without
`run_facets`/`job_facets` degrades to the empty record. -/
theorem claim_C2_witness :
    emptyManager.extract_metadata opWrongLineage none () = OperatorLineage.empty :=
  claim_C2 emptyManager opWrongLineage none () (Except.ok llWrong) rfl rfl rfl rfl
    (by
      intro x hx
      injection hx with h
      subst h
      rfl)

/-- Claim C8: `extract_metadata` under RUNNING invokes the start-phase
`extract()`: a unit-of-work with all three hooks yields its on-start record
under RUNNING, and a unit-of-work without an on-start hook yields the empty
record under RUNNING even though its on-complete hook would produce a
non-empty one. -/
theorem claim_C8 {Ds Fct TI : Type} (m : ExtractorManager Ds Fct TI)
    (opA opN : Operator Ds Fct TI) (ti : TI)
    (rs : HookResult Ds Fct) (fc ff fn : TI → HookResult Ds Fct)
    (hregA : m.mergedLookup opA.classname = none)
    (hsA : opA.on_start = HookSlot.method rs)
    (hcA : opA.on_complete = HookSlot.method fc)
    (hfA : opA.on_failure = HookSlot.method ff)
    (hregN : m.mergedLookup opN.classname = none)
    (hsN : opN.on_start.isMethod = false)
    (hcN : opN.on_complete = HookSlot.method fn)
    (hnonempty : getOpenlineageFacets (fn ti) ≠ OperatorLineage.empty) :
    m.extract_metadata opA (some TaskInstanceState.running) ti = getOpenlineageFacets rs ∧
    m.extract_metadata opN (some TaskInstanceState.running) ti = OperatorLineage.empty := by
  have heligN : defaultEligible opN = true := by
    simp [defaultEligible, hcN, HookSlot.isMethod]
  have hextN : (DefaultExtractor.build opN).extract = Except.ok (some OperatorLineage.empty) := by
    cases hss : opN.on_start with
    | absent => simp [DefaultExtractor.build, BaseExtractor.extract, hss]
    | nonCallableAttr => simp [DefaultExtractor.build, BaseExtractor.extract, hss]
    | method r => rw [hss] at hsN; simp [HookSlot.isMethod] at hsN
  constructor
  · simp [ExtractorManager.extract_metadata, ExtractorManager.get_extractor_class, hregA,
      defaultEligible, hsA, HookSlot.isMethod, defaultExtractorClass, DefaultExtractor.build,
      BaseExtractor.extract]
  · simp [ExtractorManager.extract_metadata, ExtractorManager.get_extractor_class, hregN, heligN,
      defaultExtractorClass, hextN]

/-- Witness for C8: the all-hooks fixture yields its start record under
RUNNING while the fixture without an on-start hook yields the empty record
under RUNNING although its on-complete record is non-empty. -/
theorem claim_C8_witness :
    emptyManager.extract_metadata opAllMethods (some TaskInstanceState.running) () =
        getOpenlineageFacets (Except.ok llStart) ∧
      emptyManager.extract_metadata opNoStart (some TaskInstanceState.running) () =
        OperatorLineage.empty :=
  claim_C8 emptyManager opAllMethods opNoStart () (Except.ok llStart)
    (fun _ => Except.ok llComplete) (fun _ => Except.ok llFailure)
    (fun _ => Except.ok llComplete) rfl rfl rfl rfl rfl rfl rfl (by decide)

/-- Claim C9: a unit-of-work class declaring a non-callable class attribute
named like a hook, with no genuinely implemented hook method, fails the
Default-Extractor eligibility test, and `get_extractor_class` returns
`none` on a registry miss. -/
theorem claim_C9 {Ds Fct TI : Type} (m : ExtractorManager Ds Fct TI) (op : Operator Ds Fct TI)
    (hreg : m.mergedLookup op.classname = none)
    (hattr : op.on_start = HookSlot.nonCallableAttr ∨ op.on_complete = HookSlot.nonCallableAttr ∨
      op.on_failure = HookSlot.nonCallableAttr)
    (hs : op.on_start.isMethod = false) (hc : op.on_complete.isMethod = false)
    (hf : op.on_failure.isMethod = false) :
    defaultEligible op = false ∧ m.get_extractor_class op = none := by
  have helig : defaultEligible op = false := by simp [defaultEligible, hs, hc, hf]
  exact ⟨helig, by simp [ExtractorManager.get_extractor_class, hreg, helig]⟩

/-- Witness for C9: the broken-operator fixture is not eligible and
resolves to no extractor class. -/
theorem claim_C9_witness :
    defaultEligible opBroken = false ∧ emptyManager.get_extractor_class opBroken = none :=
  claim_C9 emptyManager opBroken rfl (Or.inl rfl) rfl rfl rfl

end AirflowOL
